import Mathlib

/-!
Shallow embedding of the read-only data-access core of
`src/espn_data_reader.py` (class `ESPNDataRepository`).

Modelling conventions:
* A pandas cell value is a `Value`: an integer (CSV numeric cells), a string,
  or `null` (NaN).  Floating-point cells are not needed by the verified
  operations and are modelled by exact integers/strings.
* A `Row` is an association list from column name to value; reading an absent
  column yields `null` (pandas missing-column semantics after `concat`).
* A `Table` is a column list (the schema, in order) plus a row list,
  mirroring a `DataFrame`.
* Python exceptions raised by the source (`KeyError`, `FileNotFoundError`,
  `ValueError`, parse errors) are modelled by `Except Err`, with the error
  kinds named after the specification's taxonomy.
* `os.listdir` enumeration order is modelled by the order of the directory
  listing stored in the repository value.
* `float()` is modelled by an exact decimal parse (`parse_decimal`): finite
  decimal/exponent literals evaluate exactly, and inputs Python maps to
  `inf`/`nan` (huge exponents, `"inf"`, `"nan"`) yield `none`, which is
  observationally the fallback branch of `_id_str` in the source.
-/

set_option maxRecDepth 40000

instance {ε α : Type} [DecidableEq ε] [DecidableEq α] : DecidableEq (Except ε α) :=
  fun x y =>
    match x, y with
    | Except.ok a, Except.ok b =>
      if h : a = b then isTrue (by rw [h]) else isFalse (fun he => h (Except.ok.inj he))
    | Except.error a, Except.error b =>
      if h : a = b then isTrue (by rw [h]) else isFalse (fun he => h (Except.error.inj he))
    | Except.ok _, Except.error _ => isFalse (fun he => Except.noConfusion he)
    | Except.error _, Except.ok _ => isFalse (fun he => Except.noConfusion he)

namespace ESPNData

inductive Value where
  | int (n : ℤ)
  | str (s : String)
  | null
deriving DecidableEq

abbrev Row := List (String × Value)

def Row.get (r : Row) (c : String) : Value :=
  (r.lookup c).getD Value.null

structure Table where
  cols : List String
  rows : List Row
deriving DecidableEq

def Table.emptyDF : Table := { cols := [], rows := [] }

/-- Model of pandas `df.empty`: true when there are no rows or no columns. -/
def Table.pdEmpty (t : Table) : Bool :=
  t.rows.isEmpty || t.cols.isEmpty

/-- Model of Python `str()` on a pandas cell value (`str(nan) = "nan"`). -/
def py_str : Value → String
  | .int n => toString n
  | .str s => s
  | .null => "nan"

def digits_to_nat (cs : List Char) : ℕ :=
  cs.foldl (fun a c => a * 10 + (c.toNat - 48)) 0

def all_digits (cs : List Char) : Bool :=
  !cs.isEmpty && cs.all (·.isDigit)

/-- Strip leading and trailing whitespace from a character list (the effect of
Python `str.strip` during numeric parsing). -/
def trim_chars (cs : List Char) : List Char :=
  ((cs.dropWhile (·.isWhitespace)).reverse.dropWhile (·.isWhitespace)).reverse

/-- Split a character list on a separator character, like `str.split(sep)`. -/
def split_char (sep : Char) : List Char → List (List Char)
  | [] => [[]]
  | c :: rest =>
    if c = sep then [] :: split_char sep rest
    else
      match split_char sep rest with
      | [] => [[c]]
      | h :: t => (c :: h) :: t

/-- Model of Python `int(string)`: optional surrounding whitespace, optional
sign, then decimal digits. -/
def py_int (s : String) : Option ℤ :=
  match trim_chars s.data with
  | '+' :: ds => if all_digits ds then some (digits_to_nat ds : ℤ) else none
  | '-' :: ds => if all_digits ds then some (-(digits_to_nat ds : ℤ)) else none
  | ds => if all_digits ds then some (digits_to_nat ds : ℤ) else none

/-- Model of Python `int(float(string))` computed exactly: the string is
parsed as an optional sign, decimal digits with an optional dot, and an
optional `e`/`E` exponent; its exact decimal value is truncated toward zero.
`none` models the paths on which the Python chain raises: non-numeric
strings, `inf`/`nan` spellings, and exponents overflowing the double range
(values of magnitude at least `2 ^ 1024` are `inf`).  Finite doubles are
modelled by their exact decimal value. -/
def int_float_str (s : String) : Option ℤ :=
  let cs := (trim_chars s.data).map Char.toLower
  let signed : Bool × List Char :=
    match cs with
    | '+' :: rest => (false, rest)
    | '-' :: rest => (true, rest)
    | rest => (false, rest)
  let neg := signed.1
  let body := signed.2
  let mantExp : Option (List Char × ℤ) :=
    match split_char 'e' body with
    | [m] => some (m, 0)
    | [m, e] =>
      match e with
      | '+' :: ds => if all_digits ds then some (m, (digits_to_nat ds : ℤ)) else none
      | '-' :: ds => if all_digits ds then some (m, -(digits_to_nat ds : ℤ)) else none
      | ds => if all_digits ds then some (m, (digits_to_nat ds : ℤ)) else none
    | _ => none
  match mantExp with
  | none => none
  | some (mant, e) =>
    let digs : Option (ℕ × ℕ) :=
      match split_char '.' mant with
      | [i] => if all_digits i then some (digits_to_nat i, 0) else none
      | [i, f] =>
        if (i.all (·.isDigit)) && (f.all (·.isDigit)) && !(i.isEmpty && f.isEmpty) then
          some (digits_to_nat (i ++ f), f.length)
        else none
      | _ => none
    match digs with
    | none => none
    | some (a, k) =>
      let m : ℤ := e - k
      let isInf : Bool :=
        if 0 ≤ m then decide (2 ^ 1024 ≤ a * 10 ^ m.toNat)
        else decide (2 ^ 1024 * 10 ^ (-m).toNat ≤ a)
      if isInf then none
      else
        let n : ℕ := if 0 ≤ m then a * 10 ^ m.toNat else a / 10 ^ (-m).toNat
        some (if neg then -(n : ℤ) else (n : ℤ))

/-- Model of `int(float(x))` on a cell value; `none` when the conversion chain
raises in Python (NaN cell, non-numeric string, overflow). -/
def int_float : Value → Option ℤ
  | .int n => some n
  | .str s => int_float_str s
  | .null => none

/-- Source `ESPNDataRepository._id_str`: `str(int(float(x)))` with a
`str(x)` fallback when the conversion raises. -/
def id_str (x : Value) : String :=
  match int_float x with
  | some n => toString n
  | none => py_str x

/-- Model of the pandas elementwise `==` used by the detail-accessor filters:
typed equality, `NaN` comparing unequal to everything (including itself) and
numbers never equal to strings. -/
def pd_eq : Value → Value → Bool
  | .int a, .int b => a = b
  | .str a, .str b => a = b
  | _, _ => false

/-- Overwrite (or add) one column of a row, used to model in-place column
assignment `df[c] = ...`. -/
def set_col (r : Row) (c : String) (v : Value) : Row :=
  if (r.lookup c).isSome then
    r.map (fun p => if p.1 = c then (c, v) else p)
  else r ++ [(c, v)]

/-- Model of `df[c] = df[c].astype(str)`: every cell of column `c` becomes its
string form (NaN becomes the string `"nan"`, as pandas does). -/
def astype_str (t : Table) (c : String) : Table :=
  { cols := t.cols
    rows := t.rows.map (fun r => set_col r c (Value.str (py_str (Row.get r c)))) }

/-- The guarded loop `for c in keys: if c in df.columns: df[c] = df[c].astype(str)`. -/
def astype_keys (t : Table) (keys : List String) : Table :=
  keys.foldl (fun acc c => if c ∈ acc.cols then astype_str acc c else acc) t

/-- Model of `df[cs]` column selection; rows are normalised to exactly the
selected columns in order. -/
def select_cols (t : Table) (cs : List String) : Table :=
  { cols := cs
    rows := t.rows.map (fun r => cs.map (fun c => (c, Row.get r c))) }

def rename_one (m : List (String × String)) (c : String) : String :=
  (m.lookup c).getD c

/-- Model of `df.rename(columns=mapping)`. -/
def rename_cols (t : Table) (m : List (String × String)) : Table :=
  { cols := t.cols.map (rename_one m)
    rows := t.rows.map (fun r => r.map (fun p => (rename_one m p.1, p.2))) }

/-- Model of `df.drop(columns=[c], errors="ignore")`. -/
def drop_col (t : Table) (c : String) : Table :=
  { cols := t.cols.filter (· ≠ c)
    rows := t.rows.map (fun r => r.filter (fun p => p.1 ≠ c)) }

/-- Keep the first occurrence of every duplicated row, the semantics of
`df.drop_duplicates()`. -/
def dedup_first : List Row → List Row
  | [] => []
  | r :: rs => r :: dedup_first (rs.filter (· ≠ r))
termination_by l => l.length
decreasing_by
  simp only [gt_iff_lt]
  exact Nat.lt_succ_of_le (List.length_filter_le _ rs)

def drop_dups (t : Table) : Table :=
  { cols := t.cols, rows := dedup_first t.rows }

/-- Model of `df[df[c] == v].reset_index(drop=True)`. -/
def filter_eq (t : Table) (c : String) (v : Value) : Table :=
  { cols := t.cols, rows := t.rows.filter (fun r => pd_eq (Row.get r c) v) }

inductive Err where
  | unknownTable
  | fileMissing
  | dirMissing
  | fileCorrupt
  | recordNotFound (eid : String)
  | seasonUndetermined
  | mergeKeyMissing
deriving DecidableEq

/-- Suffix renaming pandas applies to columns shared by both sides of a merge
(other than the join key): `_x` on the left frame, `_y` on the right frame. -/
def sfx (tag : String) (ov : List String) (c : String) : String :=
  if c ∈ ov then c ++ tag else c

/-- Model of `left.merge(right, on=k, how="left")` (also covering
`left_on=k, right_on=k` for a shared column name, which pandas collapses to a
single key column): every left row survives; a left row with `n ≥ 1` key
matches on the right produces `n` output rows in right-table order, and a left
row with no match produces one output row whose enrichment columns are null
(absent columns read as null in this model).  Merging on a key absent from
either side raises `KeyError` in pandas, modelled as `Err.mergeKeyMissing`. -/
def left_join (l r : Table) (k : String) : Except Err Table :=
  if k ∈ l.cols ∧ k ∈ r.cols then
    let ov := (l.cols.filter (fun c => c ∈ r.cols)).filter (· ≠ k)
    let rcols := r.cols.filter (· ≠ k)
    Except.ok
      { cols := l.cols.map (sfx "_x" ov) ++ rcols.map (sfx "_y" ov)
        rows := l.rows.flatMap (fun lr =>
          let lrow : Row := l.cols.map (fun c => (sfx "_x" ov c, Row.get lr c))
          let ms := r.rows.filter (fun rr => Row.get rr k = Row.get lr k)
          if ms.isEmpty then [lrow]
          else ms.map (fun rr =>
            lrow ++ rcols.map (fun c => (sfx "_y" ov c, Row.get rr c)))) }
  else Except.error Err.mergeKeyMissing

/-- Content of a file in a detail-data directory: bytes that parse as one CSV
table, or a ZIP archive whose members are named CSV tables.  (Member bytes are
modelled already parsed; per-member parse failures are outside the verified
claims.) -/
inductive FileContent where
  | csvBytes (t : Table)
  | zipBytes (members : List (String × Table))
deriving DecidableEq

structure DirFile where
  name : String
  content : FileContent
deriving DecidableEq

/-- The on-disk state a repository reads: `base_data` files by filename, and
the detail subdirectories, each as a directory listing in `os.listdir`
enumeration order.  `autocache` is the constructor flag. -/
structure Repo where
  baseFiles : List (String × Table)
  dirs : List (String × List DirFile)
  autocache : Bool
deriving DecidableEq

/-- The `BASE_TABLES` registry of the source class. -/
def BASE_TABLES : List (String × String) :=
  [("fixtures", "fixtures.csv"), ("teams", "teams.csv"), ("players", "players.csv"),
   ("leagues", "leagues.csv"), ("venues", "venues.csv"), ("team_stats", "teamStats.csv"),
   ("standings", "standings.csv"), ("team_roster", "teamRoster.csv"), ("status", "status.csv")]

/-- In-memory state of a repository instance: the base-table cache and a
disk-read counter (the spec's injected I/O counter). -/
structure RepoState where
  cache : List (String × Table)
  reads : ℕ
deriving DecidableEq

/-- Source `_load_base_table`, state passed explicitly: cache lookup first
(returning a copy, which is the value itself in this pure model); otherwise
registry lookup (`KeyError` for unknown names), file read (counted), cache
insertion when `autocache` is set, and a copy of the parsed table. -/
def load_base_table (repo : Repo) (st : RepoState) (name : String) :
    Except Err (Table × RepoState) :=
  match st.cache.lookup name with
  | some df => Except.ok (df, st)
  | none =>
    match BASE_TABLES.lookup name with
    | none => Except.error Err.unknownTable
    | some fname =>
      match repo.baseFiles.lookup fname with
      | none => Except.error Err.fileMissing
      | some df =>
        Except.ok (df,
          { cache := if repo.autocache then (name, df) :: st.cache else st.cache
            reads := st.reads + 1 })

/-- The content `_load_base_table` returns for a name, independent of the
cache state (the cache only ever holds parsed file contents; see
`load_base_table_content`).  The purely data-dependent accessors below are
stated against this content function. -/
def getBaseTable (repo : Repo) (name : String) : Except Err Table :=
  match BASE_TABLES.lookup name with
  | none => Except.error Err.unknownTable
  | some fname =>
    match repo.baseFiles.lookup fname with
    | none => Except.error Err.fileMissing
    | some df => Except.ok df

/-- Character-list model of `str.startswith`. -/
def starts_with (s pre : String) : Bool :=
  pre.data.isPrefixOf s.data

/-- Character-list model of `str.lower().endswith(suffix)`. -/
def lower_ends_with (s suf : String) : Bool :=
  suf.data.isSuffixOf (s.data.map Char.toLower)

/-- Decode one directory entry, mirroring the loop body of
`_load_files_by_pattern`: entries not starting with the pattern are skipped;
`.csv` names are parsed as one table; `.zip` names contribute every `.csv`
member; other matching names are skipped silently. -/
def parse_entry (pat : String) (f : DirFile) : Except Err (List Table) :=
  if ¬ starts_with f.name pat then Except.ok []
  else if lower_ends_with f.name ".csv" then
    match f.content with
    | .csvBytes t => Except.ok [t]
    | _ => Except.error Err.fileCorrupt
  else if lower_ends_with f.name ".zip" then
    match f.content with
    | .zipBytes ms =>
      Except.ok (ms.filterMap (fun m =>
        if lower_ends_with m.1 ".csv" then some m.2 else none))
    | _ => Except.error Err.fileCorrupt
  else Except.ok []

/-- Effectful map over a list in order, stopping at the first error — the
semantics of the Python `for` loop over `os.listdir`. -/
def mapME (f : α → Except Err β) : List α → Except Err (List β)
  | [] => Except.ok []
  | a :: as =>
    match f a with
    | Except.error e => Except.error e
    | Except.ok b =>
      match mapME f as with
      | Except.error e => Except.error e
      | Except.ok bs => Except.ok (b :: bs)

/-- Model of `pd.concat(dfs, ignore_index=True)`: rows appended in order, the
column set being the union in order of first appearance (cells absent from a
given file read as null). -/
def concat_tables (ts : List Table) : Table :=
  { cols := (ts.flatMap Table.cols).eraseDups
    rows := ts.flatMap Table.rows }

/-- Source `_load_files_by_pattern` applied to a directory listing. -/
def load_files_list (files : List DirFile) (pat : String) : Except Err Table :=
  match mapME (parse_entry pat) files with
  | Except.error e => Except.error e
  | Except.ok tss =>
    let dfs := tss.flatMap id
    if dfs.isEmpty then Except.ok Table.emptyDF else Except.ok (concat_tables dfs)

/-- Source `_load_files_by_pattern`: missing subdirectory raises
`FileNotFoundError`. -/
def load_files_by_pattern (repo : Repo) (subfolder pat : String) : Except Err Table :=
  match repo.dirs.lookup subfolder with
  | none => Except.error Err.dirMissing
  | some files => load_files_list files pat

/-- Candidate id-column names tried by `_derive_season_league_code`. -/
def CANDIDATE_ID_COLS : List String :=
  ["eventId", "eventid", "gameId", "id", "matchId"]

/-- The candidate-column loop: for each candidate present in the table, take
the first row whose normalised id equals the normalised lookup id
(`hit.iloc[0]`), else move to the next candidate. -/
def find_row_by_cols (fx : Table) (eid : String) : List String → Option Row
  | [] => none
  | c :: cs =>
    match fx.rows.find? (fun r => id_str (Row.get r c) = eid) with
    | some r => some r
    | none => find_row_by_cols fx eid cs

def find_fixture_row (fx : Table) (eid : String) : Option Row :=
  find_row_by_cols fx eid (CANDIDATE_ID_COLS.filter (· ∈ fx.cols))

/-- First component of a `"-"`-separated string, the source's
`sv.split("-")[0]` (handles `"2024"` and `"2024-2025"`). -/
def first_dash_part (s : String) : String :=
  String.mk ((split_char '-' s.data).headD [])

/-- Year extraction of `pd.to_datetime(row["date"]).year`, modelled for the
dataset's ISO-like date strings (leading `YYYY-`); other shapes fail the
parse. -/
def date_year : Value → Option ℤ
  | .str s => py_int (first_dash_part s)
  | _ => none

/-- Season derivation of `_derive_season_league_code`, branching on column
presence exactly as the source does; every raising path (`int(...)` on a
malformed value, missing/unparseable date) is the model's
`SeasonUndetermined`. -/
def season_of (cols : List String) (row : Row) : Except Err ℤ :=
  if "seasonYear" ∈ cols then
    match py_int (id_str (Row.get row "seasonYear")) with
    | some n => Except.ok n
    | none => Except.error Err.seasonUndetermined
  else if "season" ∈ cols then
    match py_int (first_dash_part (py_str (Row.get row "season"))) with
    | some n => Except.ok n
    | none => Except.error Err.seasonUndetermined
  else
    match date_year (Row.get row "date") with
    | some n => Except.ok n
    | none => Except.error Err.seasonUndetermined

/-- League-code derivation: first present column among
`leagueId`, `midsizeName`, `league`, `league_code`, read as `str(row[c])`;
`none` when no candidate column exists (the source's `for`-`else`). -/
def league_of (cols : List String) (row : Row) : Option String :=
  if "leagueId" ∈ cols then some (py_str (Row.get row "leagueId"))
  else if "midsizeName" ∈ cols then some (py_str (Row.get row "midsizeName"))
  else if "league" ∈ cols then some (py_str (Row.get row "league"))
  else if "league_code" ∈ cols then some (py_str (Row.get row "league_code"))
  else none

/-- Core of `_derive_season_league_code`: lookup on the normalised id string
`eid`; the `KeyError` message interpolates the original argument, carried
here as `orig`. -/
def derive_core (repo : Repo) (eid orig : String) : Except Err (ℤ × Option String) :=
  match getBaseTable repo "fixtures" with
  | Except.error e => Except.error e
  | Except.ok fx =>
    match find_fixture_row fx eid with
    | none => Except.error (Err.recordNotFound orig)
    | some row =>
      match season_of fx.cols row with
      | Except.error e => Except.error e
      | Except.ok y => Except.ok (y, league_of fx.cols row)

/-- Source `_derive_season_league_code(event_id)`. -/
def derive_season_league_code (repo : Repo) (event_id : Value) :
    Except Err (ℤ × Option String) :=
  derive_core repo (id_str event_id) (py_str event_id)

/-- Python `f"{league_code}"` on the optional league code (`None` prints as
`"None"`). -/
def league_code_str : Option String → String
  | some s => s
  | none => "None"

/-- Shared shape of the five detail accessors: resolve the partition, load
every matching file, and filter by the raw (unnormalised) requested id when
an `eventId` column is present in a non-empty result. -/
def detail_for (repo : Repo) (subfolder category : String) (event_id : Value) :
    Except Err Table :=
  match derive_season_league_code repo event_id with
  | Except.error e => Except.error e
  | Except.ok (y, lc) =>
    match load_files_by_pattern repo subfolder
        (category ++ "_" ++ toString y ++ "_" ++ league_code_str lc) with
    | Except.error e => Except.error e
    | Except.ok df =>
      if ¬ df.pdEmpty ∧ "eventId" ∈ df.cols then
        Except.ok (filter_eq df "eventId" event_id)
      else Except.ok df

def commentary_for_event (repo : Repo) (event_id : Value) : Except Err Table :=
  detail_for repo "commentary_data" "commentary" event_id

def key_events_for_event (repo : Repo) (event_id : Value) : Except Err Table :=
  detail_for repo "keyEvents_data" "keyEvents" event_id

def lineup_for_event (repo : Repo) (event_id : Value) : Except Err Table :=
  detail_for repo "lineup_data" "lineup" event_id

def player_stats_for_event (repo : Repo) (event_id : Value) : Except Err Table :=
  detail_for repo "playerStats_data" "playerStats" event_id

def plays_for_event (repo : Repo) (event_id : Value) : Except Err Table :=
  detail_for repo "plays_data" "plays" event_id

/-- The players-table preparation inside `merge_player_stats`: stringify the
key if present, keep the allow-listed descriptive columns that exist, rename
to join-safe aliases.  (The source filters the rename mapping to kept keys;
renaming is a no-op on absent columns, so the unfiltered mapping is
equivalent.) -/
def players_stage (players : Table) : Table :=
  let p := if "athleteId" ∈ players.cols then astype_str players "athleteId" else players
  let keep := ["athleteId", "shortName", "displayName", "nationality"].filter (· ∈ p.cols)
  rename_cols (select_cols p keep)
    [("shortName", "playerShortName"), ("displayName", "playerName"),
     ("nationality", "playerNationality")]

/-- The teams-table preparation inside `merge_player_stats` (entered only when
`teamId` is a column of the teams table). -/
def teams_stage (teams : Table) : Table :=
  let t := astype_str teams "teamId"
  let keep := ["teamId", "displayName", "shortName", "abbrev"].filter (· ∈ t.cols)
  rename_cols (select_cols t keep)
    [("displayName", "teamName"), ("shortName", "teamShortName"),
     ("abbrev", "teamAbbrev")]

/-- The lineup preparation inside `merge_player_stats`: on a non-empty lineup
with an `athleteId` column, stringify the key, look for the first
position-like column, and deduplicate the two-column projection; `none` when
any of these conditions fails (no join is attempted then). -/
def lineup_stage (lineup : Table) : Option (String × Table) :=
  if lineup.rows.isEmpty then none
  else if "athleteId" ∈ lineup.cols then
    let lu := astype_str lineup "athleteId"
    match ["position", "positionName", "playerPosition", "positionFullName",
           "positionAbbr"].find? (· ∈ lu.cols) with
    | some pc => some (pc, drop_dups (select_cols lu ["athleteId", pc]))
    | none => none
  else none

/-- The `event_id` extraction of `merge_player_stats`:
`str(df["eventId"].dropna().astype(str).iloc[0])` guarded by column presence
and `notna().any()`, applied to the already-stringified frame. -/
def first_event_id (df : Table) : Option String :=
  if "eventId" ∈ df.cols ∧ df.rows.any (fun r => Row.get r "eventId" ≠ Value.null) then
    some (py_str (Row.get
      ((df.rows.filter (fun r => Row.get r "eventId" ≠ Value.null)).headD [])
      "eventId"))
  else none

/-- Source `merge_player_stats`: stringify the key columns, left-join players
on `athleteId`, left-join teams on `teamId` when available (dropping the key
column afterwards, as `.drop(columns=[team_id_col])` does), then best-effort
position enrichment from the lineup of the first event id — note the lineup
load is NOT wrapped in any error handling in the source, so its failures
surface to the caller. -/
def merge_player_stats (repo : Repo) (player_stats_df : Table) : Except Err Table :=
  if player_stats_df.pdEmpty then Except.ok player_stats_df
  else
    let df := astype_keys player_stats_df ["athleteId", "teamId", "eventId"]
    match getBaseTable repo "players" with
    | Except.error e => Except.error e
    | Except.ok players =>
      match left_join df (players_stage players) "athleteId" with
      | Except.error e => Except.error e
      | Except.ok out1 =>
        match getBaseTable repo "teams" with
        | Except.error e => Except.error e
        | Except.ok teams =>
          let step2 : Except Err Table :=
            if "teamId" ∈ teams.cols then
              match left_join out1 (teams_stage teams) "teamId" with
              | Except.error e => Except.error e
              | Except.ok o => Except.ok (drop_col o "teamId")
            else Except.ok out1
          match step2 with
          | Except.error e => Except.error e
          | Except.ok out2 =>
            match first_event_id df with
            | none => Except.ok out2
            | some eid =>
              if eid = "" then Except.ok out2
              else
                match lineup_for_event repo (Value.str eid) with
                | Except.error e => Except.error e
                | Except.ok lineup =>
                  match lineup_stage lineup with
                  | none => Except.ok out2
                  | some (pc, lu) =>
                    match left_join out2 lu "athleteId" with
                    | Except.error e => Except.error e
                    | Except.ok o3 => Except.ok (rename_cols o3 [(pc, "position")])

/-! Concrete repositories and datasets used by the claim theorems,
counterexamples and witnesses. -/

def tblPlayersDup : Table :=
  { cols := ["athleteId", "shortName"]
    rows := [[("athleteId", Value.str "1"), ("shortName", Value.str "A")],
             [("athleteId", Value.str "1"), ("shortName", Value.str "B")]] }

def tblPlayersUniq : Table :=
  { cols := ["athleteId", "shortName"]
    rows := [[("athleteId", Value.str "1"), ("shortName", Value.str "A")]] }

def tblPlayersKeyOnly : Table := { cols := ["athleteId"], rows := [] }

def tblTeamsNoKey : Table := { cols := ["x"], rows := [] }

def tblFixturesNoRows : Table := { cols := ["eventId"], rows := [] }

def tblFixturesId100 : Table :=
  { cols := ["id", "season", "leagueId"]
    rows := [[("id", Value.str "100"), ("season", Value.str "2024-2025"),
              ("leagueId", Value.str "ITA.1")]] }

def dfOneAthlete : Table :=
  { cols := ["athleteId", "teamId"]
    rows := [[("athleteId", Value.str "1"), ("teamId", Value.str "9")]] }

def dfAthleteEvent999 : Table :=
  { cols := ["athleteId", "eventId"]
    rows := [[("athleteId", Value.str "1"), ("eventId", Value.str "999")]] }

def dfAthleteEvent100 : Table :=
  { cols := ["athleteId", "eventId"]
    rows := [[("athleteId", Value.str "1"), ("eventId", Value.str "100")]] }

def repoC1 : Repo :=
  { baseFiles := [("players.csv", tblPlayersDup), ("teams.csv", tblTeamsNoKey)]
    dirs := [], autocache := true }

def repoC1w : Repo :=
  { baseFiles := [("players.csv", tblPlayersUniq), ("teams.csv", tblTeamsNoKey)]
    dirs := [], autocache := true }

def repoC2 : Repo :=
  { baseFiles := [("fixtures.csv", tblFixturesNoRows), ("players.csv", tblPlayersKeyOnly),
                  ("teams.csv", tblTeamsNoKey)]
    dirs := [], autocache := true }

def repoC2w : Repo :=
  { baseFiles := [("fixtures.csv", tblFixturesId100), ("players.csv", tblPlayersKeyOnly),
                  ("teams.csv", tblTeamsNoKey)]
    dirs := [("lineup_data", [])], autocache := true }

def outC2w : Table :=
  match merge_player_stats repoC2w dfAthleteEvent100 with
  | Except.ok t => t
  | Except.error _ => Table.emptyDF

def tblRows1 : Table := { cols := ["v"], rows := [[("v", Value.int 1)]] }
def tblRows2 : Table := { cols := ["v"], rows := [[("v", Value.int 2)]] }
def fileA : DirFile := { name := "c_a.csv", content := FileContent.csvBytes tblRows1 }
def fileB : DirFile := { name := "c_b.csv", content := FileContent.csvBytes tblRows2 }

def tblCommentStr : Table :=
  { cols := ["eventId", "text"]
    rows := [[("eventId", Value.str "100"), ("text", Value.str "goal")],
             [("eventId", Value.str "200"), ("text", Value.str "save")]] }

def tblCommentInt : Table :=
  { cols := ["eventId", "text"]
    rows := [[("eventId", Value.int 100), ("text", Value.str "goal")],
             [("eventId", Value.int 200), ("text", Value.str "save")]] }

def repoC4s : Repo :=
  { baseFiles := [("fixtures.csv", tblFixturesId100)]
    dirs := [("commentary_data",
              [{ name := "commentary_2024_ITA.1_part1.csv"
                 content := FileContent.csvBytes tblCommentStr }])]
    autocache := true }

def repoC4n : Repo :=
  { baseFiles := [("fixtures.csv", tblFixturesId100)]
    dirs := [("commentary_data",
              [{ name := "commentary_2024_ITA.1_part1.csv"
                 content := FileContent.csvBytes tblCommentInt }])]
    autocache := true }

def repoC9 : Repo :=
  { baseFiles := []
    dirs := [("commentary_data",
              [{ name := "other_2023_ENG.1.csv", content := FileContent.csvBytes tblRows1 }])]
    autocache := true }

/-- A cache state is consistent when every cached entry is the parsed content
of the corresponding base-data file. -/
def cache_ok (repo : Repo) (st : RepoState) : Prop :=
  ∀ n t, st.cache.lookup n = some t → getBaseTable repo n = Except.ok t

/-- The join-key column `k` takes pairwise distinct values over the rows of
`t` (so a left join on `k` against `t` matches each left row at most once). -/
def KeyUnique (k : String) (t : Table) : Prop :=
  t.rows.Pairwise (fun a b => Row.get a k ≠ Row.get b k)

instance (k : String) (t : Table) : Decidable (KeyUnique k t) :=
  inferInstanceAs (Decidable (List.Pairwise (fun a b => Row.get a k ≠ Row.get b k) t.rows))

end ESPNData

section SanityChecks
open ESPNData
example : id_str (Value.str "123.0") = "123" := by decide
example : id_str (Value.str "abc") = "abc" := by decide
example : id_str (Value.int 123) = "123" := by decide
example : id_str Value.null = "nan" := by decide
example : id_str (Value.str "7.5") = "7" := by decide
example : id_str (Value.str "-7.5") = "-7" := by decide
example : id_str (Value.str " 12 ") = "12" := by decide
example : id_str (Value.str "1e3") = "1000" := by decide
example : id_str (Value.str "1e400") = "1e400" := by decide
example : id_str (Value.str "nan") = "nan" := by decide
example : id_str (Value.str ".5") = "0" := by decide
example : py_int "2024" = some 2024 := by decide
example : py_int "" = none := by decide

example :
    (match merge_player_stats repoC1 dfOneAthlete with
     | Except.ok t => t.rows.length
     | Except.error _ => 0) = 2 := by decide

example :
    merge_player_stats repoC2 dfAthleteEvent999 =
      Except.error (Err.recordNotFound "999") := by decide

example : "position" ∉ outC2w.cols ∧
    merge_player_stats repoC2w dfAthleteEvent100 = Except.ok outC2w := by decide

example : load_files_list [fileA, fileB] "c_" ≠ load_files_list [fileB, fileA] "c_" := by
  decide

example :
    derive_season_league_code repoC4s (Value.str "100") =
      Except.ok (2024, some "ITA.1") := by decide

example :
    commentary_for_event repoC4s (Value.str "100") =
      Except.ok { cols := ["eventId", "text"]
                  rows := [[("eventId", Value.str "100"), ("text", Value.str "goal")]] } := by
  decide

example :
    commentary_for_event repoC4n (Value.str "100") =
      Except.ok { cols := ["eventId", "text"], rows := [] } := by decide

example :
    commentary_for_event repoC4n (Value.int 100) =
      Except.ok { cols := ["eventId", "text"]
                  rows := [[("eventId", Value.int 100), ("text", Value.str "goal")]] } := by
  decide

example :
    load_files_by_pattern repoC9 "commentary_data" "commentary_2024_ITA.1" =
      Except.ok Table.emptyDF := by decide

example :
    load_base_table repoC2w { cache := [], reads := 0 } "teams" =
      Except.ok (tblTeamsNoKey, { cache := [("teams", tblTeamsNoKey)], reads := 1 }) := by
  decide
end SanityChecks

namespace ESPNData

/-! Supporting lemmas about the partitioned-file loader. -/

lemma mapME_ok_of_all {α β : Type} (f : α → Except Err β) (b : β) :
    ∀ l : List α, (∀ a ∈ l, f a = Except.ok b) →
      mapME f l = Except.ok (l.map (fun _ => b)) := by
  intro l
  induction l with
  | nil => intro _; rfl
  | cons a t ih =>
    intro h
    simp only [mapME, h a (by simp), ih (fun x hx => h x (by simp [hx])), List.map_cons]

lemma flatMap_id_map_const_nil {α : Type} (l : List α) :
    ((l.map (fun _ => ([] : List Table))).flatMap id).isEmpty = true := by
  induction l with
  | nil => rfl
  | cons a t ih => simp only [List.map_cons, List.flatMap_cons, id] at ih ⊢; exact ih

lemma mapME_append {α β : Type} (f : α → Except Err β) (xs ys : List α) :
    mapME f (xs ++ ys) =
      match mapME f xs with
      | Except.error e => Except.error e
      | Except.ok bs =>
        match mapME f ys with
        | Except.error e => Except.error e
        | Except.ok cs => Except.ok (bs ++ cs) := by
  induction xs with
  | nil =>
    simp only [List.nil_append, mapME]
    cases mapME f ys <;> rfl
  | cons a t ih =>
    simp only [List.cons_append, mapME, List.append_eq]
    rw [ih]
    cases f a with
    | error e => rfl
    | ok b =>
      cases mapME f t with
      | error e => rfl
      | ok bs =>
        cases mapME f ys with
        | error e => rfl
        | ok cs => simp [mapME]

lemma flatMap_id_append_cons_nil {α : Type} (bs cs : List (List α)) :
    (bs ++ ([] : List α) :: cs).flatMap id = (bs ++ cs).flatMap id := by
  induction bs with
  | nil => simp
  | cons b t ih => simp [ih]

/-- Claim C9: an existing category directory with no file matching the
pattern yields the empty table, not a failure. -/
theorem load_zero_matches_empty (repo : Repo) (subfolder pat : String)
    (fs : List DirFile) (hdir : repo.dirs.lookup subfolder = some fs)
    (hnm : ∀ f ∈ fs, starts_with f.name pat = false) :
    load_files_by_pattern repo subfolder pat = Except.ok Table.emptyDF ∧
      Table.emptyDF.rows.length = 0 := by
  refine ⟨?_, rfl⟩
  have hpe : ∀ f ∈ fs, parse_entry pat f = Except.ok [] := by
    intro f hf
    unfold parse_entry
    simp [hnm f hf]
  simp only [load_files_by_pattern, hdir, load_files_list,
    mapME_ok_of_all _ _ _ hpe, flatMap_id_map_const_nil]
  simp

/-- Witness for `load_zero_matches_empty` at a concrete repository. -/
theorem load_zero_matches_empty_witness :
    load_files_by_pattern repoC9 "commentary_data" "commentary_2024_ITA.1" =
      Except.ok Table.emptyDF :=
  (load_zero_matches_empty repoC9 "commentary_data" "commentary_2024_ITA.1"
    [{ name := "other_2023_ENG.1.csv", content := FileContent.csvBytes tblRows1 }]
    (by decide) (by decide)).1

/-- Claim C10: a prefix-matching directory entry that is neither `.csv` nor
`.zip` (lowercased) is skipped silently — inserting it anywhere in the
listing leaves the loader's result unchanged — and a ZIP member whose name
does not end in `.csv` is likewise skipped silently. -/
theorem non_csv_zip_entries_skipped (pat : String) (xs ys : List DirFile)
    (f : DirFile) (nm : String) (ms1 ms2 : List (String × Table))
    (m : String × Table) :
    (starts_with f.name pat = true →
     lower_ends_with f.name ".csv" = false →
     lower_ends_with f.name ".zip" = false →
     load_files_list (xs ++ f :: ys) pat = load_files_list (xs ++ ys) pat) ∧
    (lower_ends_with m.1 ".csv" = false →
     parse_entry pat { name := nm, content := FileContent.zipBytes (ms1 ++ m :: ms2) } =
       parse_entry pat { name := nm, content := FileContent.zipBytes (ms1 ++ ms2) }) := by
  constructor
  · intro hs hcsv hzip
    have hf : parse_entry pat f = Except.ok [] := by
      unfold parse_entry
      simp [hs, hcsv, hzip]
    unfold load_files_list
    rw [mapME_append, mapME_append]
    cases hxs : mapME (parse_entry pat) xs with
    | error e => rfl
    | ok bs =>
      simp only [mapME, hf]
      cases hys : mapME (parse_entry pat) ys with
      | error e => rfl
      | ok cs => simp only [flatMap_id_append_cons_nil]
  · intro hm
    unfold parse_entry
    by_cases h1 : starts_with nm pat
    · by_cases h2 : lower_ends_with nm ".csv"
      · simp [h1, h2]
      · by_cases h3 : lower_ends_with nm ".zip"
        · simp [h1, h2, h3, List.filterMap_append, List.filterMap_cons, hm]
        · simp [h1, h2, h3]
    · simp [h1]

/-- Witness for `non_csv_zip_entries_skipped` at concrete listings. -/
theorem non_csv_zip_entries_skipped_witness :
    load_files_list
        [fileA, { name := "c_readme.txt", content := FileContent.csvBytes tblRows2 }, fileB]
        "c_" =
      load_files_list [fileA, fileB] "c_" ∧
    parse_entry "c_"
        { name := "c_arch.zip"
          content := FileContent.zipBytes [("inner.csv", tblRows1), ("notes.txt", tblRows2)] } =
      parse_entry "c_"
        { name := "c_arch.zip", content := FileContent.zipBytes [("inner.csv", tblRows1)] } := by
  constructor
  · exact (non_csv_zip_entries_skipped "c_" [fileA] [fileB]
      { name := "c_readme.txt", content := FileContent.csvBytes tblRows2 }
      "c_arch.zip" [("inner.csv", tblRows1)] [] ("notes.txt", tblRows2)).1
      (by decide) (by decide) (by decide)
  · exact (non_csv_zip_entries_skipped "c_" [fileA] [fileB]
      { name := "c_readme.txt", content := FileContent.csvBytes tblRows2 }
      "c_arch.zip" [("inner.csv", tblRows1)] [] ("notes.txt", tblRows2)).2
      (by decide)

/-! Base-table store: cache behaviour and content consistency. -/

/-- Faithfulness bridge for the pure accessors: a successful stateful load
from a consistent cache returns exactly the content `getBaseTable` describes,
and preserves consistency. -/
lemma load_base_table_content (repo : Repo) (st : RepoState) (name : String)
    (t : Table) (st' : RepoState) (hc : cache_ok repo st)
    (h : load_base_table repo st name = Except.ok (t, st')) :
    getBaseTable repo name = Except.ok t ∧ cache_ok repo st' := by
  unfold load_base_table at h
  cases hl : st.cache.lookup name with
  | some df =>
    simp only [hl] at h
    have ht : df = t ∧ st = st' := by
      have := Except.ok.inj h
      exact ⟨congrArg Prod.fst this, congrArg Prod.snd this⟩
    refine ⟨ht.1 ▸ hc name df hl, ht.2 ▸ hc⟩
  | none =>
    simp only [hl] at h
    cases hb : BASE_TABLES.lookup name with
    | none => simp [hb] at h
    | some fname =>
      simp only [hb] at h
      cases hf : repo.baseFiles.lookup fname with
      | none => simp [hf] at h
      | some df =>
        simp only [hf] at h
        have hget : getBaseTable repo name = Except.ok df := by
          simp only [getBaseTable, hb, hf]
        have hinj := Except.ok.inj h
        have hdf : df = t := congrArg Prod.fst hinj
        have hst : st' = { cache := if repo.autocache then (name, df) :: st.cache
                                    else st.cache
                           reads := st.reads + 1 } := (congrArg Prod.snd hinj).symm
        refine ⟨hdf ▸ hget, ?_⟩
        intro n u hu
        rw [hst] at hu
        by_cases hac : repo.autocache
        · simp only [hac, if_pos] at hu
          by_cases hn : n = name
        -- lookup on the extended cache: hit on the new entry or fall through
          · subst hn
            simp [List.lookup] at hu
            exact hu ▸ hget
          · have hne : (n == name) = false := by simp [hn]
            simp [List.lookup, hne] at hu
            exact hc n u hu
        · simp only [hac, if_neg, ite_false] at hu
          exact hc n u hu

/-- Claim C8: with caching enabled, a successful load makes every subsequent
load of the same name a pure cache hit — it returns the very same table and
leaves the state (including the disk-read counter) unchanged. -/
theorem load_base_table_cached (repo : Repo) (st : RepoState) (name : String)
    (t : Table) (st' : RepoState) (hauto : repo.autocache = true)
    (h : load_base_table repo st name = Except.ok (t, st')) :
    load_base_table repo st' name = Except.ok (t, st') ∧ st'.reads = st'.reads := by
  refine ⟨?_, rfl⟩
  unfold load_base_table at h ⊢
  cases hl : st.cache.lookup name with
  | some df =>
    simp only [hl] at h
    have hinj := Except.ok.inj h
    have hdf : df = t := congrArg Prod.fst hinj
    have hst : st = st' := congrArg Prod.snd hinj
    subst hst
    simp [hl, hdf]
  | none =>
    simp only [hl] at h
    cases hb : BASE_TABLES.lookup name with
    | none => simp [hb] at h
    | some fname =>
      simp only [hb] at h
      cases hf : repo.baseFiles.lookup fname with
      | none => simp [hf] at h
      | some df =>
        simp only [hf] at h
        have hinj := Except.ok.inj h
        have hdf : df = t := congrArg Prod.fst hinj
        have hst : st' = { cache := if repo.autocache then (name, df) :: st.cache
                                    else st.cache
                           reads := st.reads + 1 } := (congrArg Prod.snd hinj).symm
        rw [hst]
        simp [hauto, List.lookup, hdf]

/-- Witness for `load_base_table_cached`: on a fresh state the second load of
`teams` is a cache hit returning the same content and the same read count. -/
theorem load_base_table_cached_witness :
    load_base_table repoC2w { cache := [("teams", tblTeamsNoKey)], reads := 1 } "teams" =
      Except.ok (tblTeamsNoKey, { cache := [("teams", tblTeamsNoKey)], reads := 1 }) :=
  (load_base_table_cached repoC2w { cache := [], reads := 0 } "teams" tblTeamsNoKey
    { cache := [("teams", tblTeamsNoKey)], reads := 1 } (by decide) (by decide)).1

/-! Partition resolver: the record-not-found path and its propagation. -/

lemma find_row_by_cols_none (fx : Table) (eid : String) :
    ∀ cs : List String,
      (∀ c ∈ cs, ∀ r ∈ fx.rows, id_str (Row.get r c) ≠ eid) →
      find_row_by_cols fx eid cs = none := by
  intro cs
  induction cs with
  | nil => intro _; rfl
  | cons c t ih =>
    intro h
    unfold find_row_by_cols
    have hfind : fx.rows.find? (fun r => id_str (Row.get r c) = eid) = none := by
      rw [List.find?_eq_none]
      intro r hr
      simpa using h c (by simp) r hr
    rw [hfind]
    exact ih (fun c' hc' => h c' (by simp [hc']))

/-- Claim C6: an id whose normalised form matches no fixtures row under any
candidate id column makes the resolver fail with the record-not-found error,
and each of the five detail accessors propagates exactly that error. -/
theorem record_not_found_propagates (repo : Repo) (v : Value) (fx : Table)
    (hfx : getBaseTable repo "fixtures" = Except.ok fx)
    (hnone : ∀ c ∈ CANDIDATE_ID_COLS, c ∈ fx.cols →
      ∀ r ∈ fx.rows, id_str (Row.get r c) ≠ id_str v) :
    derive_season_league_code repo v = Except.error (Err.recordNotFound (py_str v)) ∧
    commentary_for_event repo v = Except.error (Err.recordNotFound (py_str v)) ∧
    key_events_for_event repo v = Except.error (Err.recordNotFound (py_str v)) ∧
    lineup_for_event repo v = Except.error (Err.recordNotFound (py_str v)) ∧
    player_stats_for_event repo v = Except.error (Err.recordNotFound (py_str v)) ∧
    plays_for_event repo v = Except.error (Err.recordNotFound (py_str v)) := by
  have hfind : find_fixture_row fx (id_str v) = none := by
    unfold find_fixture_row
    apply find_row_by_cols_none
    intro c hc
    exact hnone c (List.mem_filter.1 hc).1 (by simpa using (List.mem_filter.1 hc).2)
  have hd : derive_season_league_code repo v =
      Except.error (Err.recordNotFound (py_str v)) := by
    unfold derive_season_league_code derive_core
    simp only [hfx, hfind]
  refine ⟨hd, ?_, ?_, ?_, ?_, ?_⟩ <;>
    simp only [commentary_for_event, key_events_for_event, lineup_for_event,
      player_stats_for_event, plays_for_event, detail_for, hd]

/-- Witness for `record_not_found_propagates`: id `"999"` is absent from the
fixtures of `repoC2w`. -/
theorem record_not_found_propagates_witness :
    derive_season_league_code repoC2w (Value.str "999") =
      Except.error (Err.recordNotFound "999") ∧
    lineup_for_event repoC2w (Value.str "999") =
      Except.error (Err.recordNotFound "999") := by
  have h := record_not_found_propagates repoC2w (Value.str "999") tblFixturesId100
    (by decide) (by decide)
  exact ⟨h.1, h.2.2.2.1⟩

/-! The id normaliser. -/

/-- Claim C7: `_id_str` is total — it yields the canonical integer string
whenever the `int(float(.))` chain succeeds and falls back to `str(x)`
otherwise — hence `123`, `"123"` and `"123.0"` normalise identically and the
resolver cannot distinguish ids with equal normal forms; malformed ids are
compared by their plain string form. -/
theorem id_str_total_and_canonical :
    (∀ v n, int_float v = some n → id_str v = toString n) ∧
    (∀ v, int_float v = none → id_str v = py_str v) ∧
    id_str (Value.int 123) = "123" ∧
    id_str (Value.str "123") = "123" ∧
    id_str (Value.str "123.0") = "123" ∧
    (∀ repo (v w : Value) p, id_str v = id_str w →
      (derive_season_league_code repo v = Except.ok p ↔
        derive_season_league_code repo w = Except.ok p)) := by
  refine ⟨?_, ?_, by decide, by decide, by decide, ?_⟩
  · intro v n h
    unfold id_str
    rw [h]
  · intro v h
    unfold id_str
    rw [h]
  · intro repo v w p h
    unfold derive_season_league_code derive_core
    rw [h]
    cases hg : getBaseTable repo "fixtures" with
    | error e => simp
    | ok fx =>
      cases hff : find_fixture_row fx (id_str w) with
      | none => simp [hff]
      | some row =>
        cases hs : season_of fx.cols row with
        | error e => simp [hff, hs]
        | ok y => simp [hff, hs]

/-- Witness for `id_str_total_and_canonical` at concrete inputs. -/
theorem id_str_total_and_canonical_witness :
    id_str (Value.str "7.5") = "7" ∧ id_str (Value.str "abc") = "abc" := by
  constructor
  · exact (id_str_total_and_canonical.1 (Value.str "7.5") 7 (by decide)).trans (by decide)
  · exact (id_str_total_and_canonical.2.1 (Value.str "abc") (by decide)).trans (by decide)

/-! Season-year derivation precedence. -/

/-- Claim C5: for a resolved fixtures row, the season year follows the exact
precedence (1) explicit `seasonYear` column when that column is present,
(2) first year of the `season` column parsed as `YYYY` or `YYYY-YYYY`,
(3) year component of the `date` column — and the resolver fails with the
season-undetermined error when the selected extractor yields no value. -/
theorem season_precedence (repo : Repo) (v : Value) (fx : Table) (row : Row)
    (hfx : getBaseTable repo "fixtures" = Except.ok fx)
    (hrow : find_fixture_row fx (id_str v) = some row) :
    ("seasonYear" ∈ fx.cols →
      derive_season_league_code repo v =
        (match py_int (id_str (Row.get row "seasonYear")) with
         | some n => Except.ok (n, league_of fx.cols row)
         | none => Except.error Err.seasonUndetermined)) ∧
    ("seasonYear" ∉ fx.cols → "season" ∈ fx.cols →
      derive_season_league_code repo v =
        (match py_int (first_dash_part (py_str (Row.get row "season"))) with
         | some n => Except.ok (n, league_of fx.cols row)
         | none => Except.error Err.seasonUndetermined)) ∧
    ("seasonYear" ∉ fx.cols → "season" ∉ fx.cols →
      derive_season_league_code repo v =
        (match date_year (Row.get row "date") with
         | some n => Except.ok (n, league_of fx.cols row)
         | none => Except.error Err.seasonUndetermined)) := by
  have hbase : derive_season_league_code repo v =
      (match season_of fx.cols row with
       | Except.error e => Except.error e
       | Except.ok y => Except.ok (y, league_of fx.cols row)) := by
    unfold derive_season_league_code derive_core
    simp only [hfx, hrow]
  refine ⟨?_, ?_, ?_⟩
  · intro h1
    rw [hbase]
    unfold season_of
    rw [if_pos h1]
    cases py_int (id_str (Row.get row "seasonYear")) <;> rfl
  · intro h1 h2
    rw [hbase]
    unfold season_of
    rw [if_neg h1, if_pos h2]
    cases py_int (first_dash_part (py_str (Row.get row "season"))) <;> rfl
  · intro h1 h2
    rw [hbase]
    unfold season_of
    rw [if_neg h1, if_neg h2]
    cases date_year (Row.get row "date") <;> rfl

/-- Witness for `season_precedence`: the `"2024-2025"` season string of the
scenario fixtures resolves to year 2024 through branch (2). -/
theorem season_precedence_witness :
    derive_season_league_code repoC4s (Value.str "100") =
      Except.ok (2024, some "ITA.1") := by
  have h := (season_precedence repoC4s (Value.str "100") tblFixturesId100
    [("id", Value.str "100"), ("season", Value.str "2024-2025"),
     ("leagueId", Value.str "ITA.1")] (by decide) (by decide)).2.1
    (by decide) (by decide)
  exact h.trans (by decide)

/-! Detail-accessor scenario: resolution succeeds for both storage types, but
the final filter compares the raw requested id with pandas typed equality. -/

/-- Counterexample to claim C4: with the scenario file storing numeric ids
(exactly what `pd.read_csv` produces for unquoted numerals), resolution still
yields `(2024, "ITA.1")`, but `commentaryFor("100")` returns zero rows even
though a row whose normalised record id is `"100"` exists in the file — the
claim's "regardless of whether the stored ids are numeric or string typed"
fails. -/
theorem commentary_numeric_ids_counterexample :
    derive_season_league_code repoC4n (Value.str "100") =
      Except.ok (2024, some "ITA.1") ∧
    commentary_for_event repoC4n (Value.str "100") =
      Except.ok { cols := ["eventId", "text"], rows := [] } ∧
    (tblCommentInt.rows.any (fun r => id_str (Row.get r "eventId") = "100")) = true := by
  refine ⟨by decide, by decide, by decide⟩

/-- Claim C4 amended: `resolve("100")` yields `(2024, "ITA.1")`, and
`commentaryFor` returns exactly the rows whose stored record id is equal to
the requested id under the typed (pandas `==`) comparison: with string-typed
storage the `"100"` request selects exactly the `"100"` row, with
numeric-typed storage a numeric `100` request selects exactly the numeric
`100` row, while a string request over numeric storage selects nothing. -/
theorem commentary_scenario_typed_filter :
    derive_season_league_code repoC4s (Value.str "100") =
      Except.ok (2024, some "ITA.1") ∧
    commentary_for_event repoC4s (Value.str "100") =
      Except.ok { cols := ["eventId", "text"]
                  rows := [[("eventId", Value.str "100"), ("text", Value.str "goal")]] } ∧
    commentary_for_event repoC4n (Value.int 100) =
      Except.ok { cols := ["eventId", "text"]
                  rows := [[("eventId", Value.int 100), ("text", Value.str "goal")]] } ∧
    commentary_for_event repoC4n (Value.str "100") =
      Except.ok { cols := ["eventId", "text"], rows := [] } := by
  refine ⟨by decide, by decide, by decide, by decide⟩

/-! Enumeration order and the concatenation of partition files. -/

lemma mapME_parse_ok (pat : String) :
    ∀ (l : List DirFile) (r : List (List Table)),
      mapME (parse_entry pat) l = Except.ok r →
      r = l.map (fun f =>
        match parse_entry pat f with
        | Except.ok ts => ts
        | Except.error _ => []) := by
  intro l
  induction l with
  | nil =>
    intro r h
    unfold mapME at h
    simpa using (Except.ok.inj h).symm
  | cons a t ih =>
    intro r h
    unfold mapME at h
    cases hfa : parse_entry pat a with
    | error e => simp [hfa] at h
    | ok b =>
      simp only [hfa] at h
      cases hmt : mapME (parse_entry pat) t with
      | error e => simp [hmt] at h
      | ok bs =>
        simp only [hmt] at h
        have hr : r = b :: bs := (Except.ok.inj h).symm
        subst hr
        simp [hfa, ih bs hmt]

lemma flatMap_map_id {α β : Type} (g : α → List β) (l : List α) :
    (l.map g).flatMap id = l.flatMap g := by
  induction l with
  | nil => rfl
  | cons a t ih => simp [ih]

lemma flatMap_flatMap {α β γ : Type} (l : List α) (f : α → List β) (g : β → List γ) :
    (l.flatMap f).flatMap g = l.flatMap (fun a => (f a).flatMap g) := by
  induction l with
  | nil => rfl
  | cons a t ih => simp [List.flatMap_append, ih]

/-- The rows of a successful partition load are the in-order concatenation of
the decoded rows of each directory entry, in directory-listing order. -/
lemma load_files_list_rows (fs : List DirFile) (pat : String) (t : Table)
    (h : load_files_list fs pat = Except.ok t) :
    t.rows = fs.flatMap (fun f =>
      (match parse_entry pat f with
       | Except.ok ts => ts
       | Except.error _ => []).flatMap Table.rows) := by
  unfold load_files_list at h
  cases hm : mapME (parse_entry pat) fs with
  | error e => simp [hm] at h
  | ok tss =>
    simp only [hm] at h
    have htss := mapME_parse_ok pat fs tss hm
    subst htss
    rw [← flatMap_flatMap, ← flatMap_map_id
      (fun f => match parse_entry pat f with
                | Except.ok ts => ts
                | Except.error _ => [])]
    by_cases hemp :
        ((fs.map (fun f => match parse_entry pat f with
                           | Except.ok ts => ts
                           | Except.error _ => [])).flatMap id).isEmpty
    · rw [if_pos hemp] at h
      have ht : t = Table.emptyDF := (Except.ok.inj h).symm
      subst ht
      rw [List.isEmpty_iff] at hemp
      rw [hemp]
      rfl
    · rw [if_neg hemp] at h
      have ht : t = concat_tables
          ((fs.map (fun f => match parse_entry pat f with
                             | Except.ok ts => ts
                             | Except.error _ => [])).flatMap id) :=
        (Except.ok.inj h).symm
      subst ht
      rfl

/-- Counterexample to claim C3: two enumeration orders of the same set of
matching files produce different results — the concatenation follows
`os.listdir` order, which the source never sorts. -/
theorem load_order_dependent_counterexample :
    ([fileA, fileB] : List DirFile).Perm [fileB, fileA] ∧
    load_files_list [fileA, fileB] "c_" ≠ load_files_list [fileB, fileA] "c_" := by
  exact ⟨by decide, by decide⟩

/-- Claim C3 amended: the result is a function of the enumeration order alone
(repeated calls over an unchanged listing agree), and across two enumeration
orders of the same file set the result is stable only up to row order: the
row multisets coincide, the row order following the listing order. -/
theorem load_rows_perm_of_listing_perm (l1 l2 : List DirFile) (pat : String)
    (t1 t2 : Table) (hperm : l1.Perm l2)
    (h1 : load_files_list l1 pat = Except.ok t1)
    (h2 : load_files_list l2 pat = Except.ok t2) :
    t1.rows.Perm t2.rows := by
  rw [load_files_list_rows l1 pat t1 h1, load_files_list_rows l2 pat t2 h2]
  exact hperm.flatMap_right _

/-- Witness for `load_rows_perm_of_listing_perm` on the two listings of the
counterexample. -/
theorem load_rows_perm_of_listing_perm_witness :
    (({ cols := ["v"], rows := [[("v", Value.int 1)], [("v", Value.int 2)]] } : Table).rows).Perm
      (({ cols := ["v"], rows := [[("v", Value.int 2)], [("v", Value.int 1)]] } : Table).rows) :=
  load_rows_perm_of_listing_perm [fileA, fileB] [fileB, fileA] "c_"
    { cols := ["v"], rows := [[("v", Value.int 1)], [("v", Value.int 2)]] }
    { cols := ["v"], rows := [[("v", Value.int 2)], [("v", Value.int 1)]] }
    (by decide) (by decide) (by decide)

/-! Join Engine: row counts. -/

lemma filter_length_le_one {α β : Type} [DecidableEq β] (f : α → β) (v : β) :
    ∀ l : List α, l.Pairwise (fun a b => f a ≠ f b) →
      (l.filter (fun x => f x = v)).length ≤ 1 := by
  intro l
  induction l with
  | nil => intro _; simp
  | cons a t ih =>
    intro h
    rw [List.pairwise_cons] at h
    rw [List.filter_cons]
    by_cases hfa : f a = v
    · have ht : t.filter (fun x => decide (f x = v)) = [] := by
        apply List.filter_eq_nil_iff.2
        intro x hx
        simp only [decide_eq_true_eq]
        intro hfx
        exact h.1 x hx (hfa.trans hfx.symm)
      simp [hfa, ht]
    · have hd : (decide (f a = v)) = false := by simp [hfa]
      simp only [hd, if_false]
      exact ih h.2

lemma chunk_length {β γ : Type} (ms : List β) (x : γ) (g : β → γ)
    (h : ms.length ≤ 1) :
    (if ms.isEmpty then [x] else ms.map g).length = 1 := by
  cases ms with
  | nil => simp
  | cons a t =>
    cases t with
    | nil => simp
    | cons b u => simp at h

lemma length_flatMap_of_one {α β : Type} (l : List α) (F : α → List β)
    (h : ∀ a ∈ l, (F a).length = 1) :
    (l.flatMap F).length = l.length := by
  induction l with
  | nil => rfl
  | cons a t ih =>
    simp only [List.flatMap_cons, List.length_append, List.length_cons,
      h a (by simp), ih (fun x hx => h x (by simp [hx]))]
    omega

/-- A left join against a right table whose key values are pairwise distinct
produces exactly one output row per input row. -/
lemma left_join_length {l r : Table} {k : String} {j : Table}
    (hu : KeyUnique k r) (h : left_join l r k = Except.ok j) :
    j.rows.length = l.rows.length := by
  unfold left_join at h
  by_cases hk : k ∈ l.cols ∧ k ∈ r.cols
  · rw [if_pos hk] at h
    have hj := (Except.ok.inj h).symm
    subst hj
    apply length_flatMap_of_one
    intro lr _
    apply chunk_length
    exact filter_length_le_one (fun rr => Row.get rr k) (Row.get lr k) r.rows hu
  · rw [if_neg hk] at h
    exact absurd h (by simp)

lemma astype_str_length (t : Table) (c : String) :
    (astype_str t c).rows.length = t.rows.length := by
  simp [astype_str]

lemma astype_keys_length (keys : List String) :
    ∀ t : Table, (astype_keys t keys).rows.length = t.rows.length := by
  induction keys with
  | nil => intro t; rfl
  | cons c cs ih =>
    intro t
    unfold astype_keys at ih ⊢
    simp only [List.foldl_cons]
    by_cases hc : c ∈ t.cols
    · rw [if_pos hc, ih, astype_str_length]
    · rw [if_neg hc, ih]

lemma astype_keys_cols (keys : List String) :
    ∀ t : Table, (astype_keys t keys).cols = t.cols := by
  induction keys with
  | nil => intro t; rfl
  | cons c cs ih =>
    intro t
    unfold astype_keys at ih ⊢
    simp only [List.foldl_cons]
    by_cases hc : c ∈ t.cols
    · rw [if_pos hc, ih]; rfl
    · rw [if_neg hc, ih]

lemma drop_col_length (t : Table) (c : String) :
    (drop_col t c).rows.length = t.rows.length := by
  simp [drop_col]

lemma rename_cols_length (t : Table) (m : List (String × String)) :
    (rename_cols t m).rows.length = t.rows.length := by
  simp [rename_cols]

/-- Counterexample to claim C1: a players table with two rows for the same
`athleteId` makes `merge_player_stats` return two rows for a one-row input —
the outer-left join duplicates left rows when the right side carries
duplicate join-key values. -/
theorem merge_player_stats_duplicates_counterexample :
    (match merge_player_stats repoC1 dfOneAthlete with
     | Except.ok t => t.rows.length
     | Except.error _ => 0) = 2 ∧
    dfOneAthlete.rows.length = 1 := by
  exact ⟨by decide, by decide⟩

/-- Claim C1 amended: `merge_player_stats` preserves the row count exactly
whenever each of the three enrichment tables it actually joins (the prepared
players table, the prepared teams table, and the deduplicated lineup
projection) carries at most one row per join-key value; with duplicate
join-key values on a right-hand side the row count can grow, so the
unconditional bound of the claim does not hold. -/
theorem merge_player_stats_row_count (repo : Repo) (df out pt tt : Table)
    (hps : getBaseTable repo "players" = Except.ok pt)
    (hts : getBaseTable repo "teams" = Except.ok tt)
    (hpu : KeyUnique "athleteId" (players_stage pt))
    (htu : "teamId" ∈ tt.cols → KeyUnique "teamId" (teams_stage tt))
    (hlu : ∀ s, first_event_id (astype_keys df ["athleteId", "teamId", "eventId"]) = some s →
      ∀ lt, lineup_for_event repo (Value.str s) = Except.ok lt →
      ∀ pc lu, lineup_stage lt = some (pc, lu) → KeyUnique "athleteId" lu)
    (hok : merge_player_stats repo df = Except.ok out) :
    out.rows.length = df.rows.length := by
  unfold merge_player_stats at hok
  by_cases hpd : df.pdEmpty
  · rw [if_pos hpd] at hok
    rw [← Except.ok.inj hok]
  · rw [if_neg hpd] at hok
    simp only [hps] at hok
    cases hj1 : left_join (astype_keys df ["athleteId", "teamId", "eventId"])
        (players_stage pt) "athleteId" with
    | error e => simp [hj1] at hok
    | ok out1 =>
      simp only [hj1] at hok
      have len1 : out1.rows.length = df.rows.length := by
        rw [left_join_length hpu hj1, astype_keys_length]
      simp only [hts] at hok
      have hstep2 : ∀ out2,
          (if "teamId" ∈ tt.cols then
            match left_join out1 (teams_stage tt) "teamId" with
            | Except.error e => Except.error e
            | Except.ok o => Except.ok (drop_col o "teamId")
          else Except.ok out1) = Except.ok out2 →
          out2.rows.length = df.rows.length := by
        intro out2 h2
        by_cases htid : "teamId" ∈ tt.cols
        · rw [if_pos htid] at h2
          cases hj2 : left_join out1 (teams_stage tt) "teamId" with
          | error e => simp [hj2] at h2
          | ok o =>
            simp only [hj2] at h2
            rw [← Except.ok.inj h2, drop_col_length, left_join_length (htu htid) hj2,
              len1]
        · rw [if_neg htid] at h2
          rw [← Except.ok.inj h2, len1]
      cases hev : first_event_id (astype_keys df ["athleteId", "teamId", "eventId"]) with
      | none =>
        simp only [hev] at hok
        cases h2 : (if "teamId" ∈ tt.cols then
            match left_join out1 (teams_stage tt) "teamId" with
            | Except.error e => Except.error e
            | Except.ok o => Except.ok (drop_col o "teamId")
          else Except.ok out1) with
        | error e => simp [h2] at hok
        | ok out2 =>
          simp only [h2] at hok
          rw [← Except.ok.inj hok]
          exact hstep2 out2 h2
      | some eid =>
        simp only [hev] at hok
        cases h2 : (if "teamId" ∈ tt.cols then
            match left_join out1 (teams_stage tt) "teamId" with
            | Except.error e => Except.error e
            | Except.ok o => Except.ok (drop_col o "teamId")
          else Except.ok out1) with
        | error e => simp [h2] at hok
        | ok out2 =>
          simp only [h2] at hok
          have hlen2 := hstep2 out2 h2
          by_cases heid : eid = ""
          · rw [if_pos heid] at hok
            rw [← Except.ok.inj hok]
            exact hlen2
          · rw [if_neg heid] at hok
            cases hl : lineup_for_event repo (Value.str eid) with
            | error e => simp [hl] at hok
            | ok lt =>
              simp only [hl] at hok
              cases hls : lineup_stage lt with
              | none =>
                simp only [hls] at hok
                rw [← Except.ok.inj hok]
                exact hlen2
              | some pclu =>
                simp only [hls] at hok
                cases hj3 : left_join out2 pclu.2 "athleteId" with
                | error e => simp [hj3] at hok
                | ok o3 =>
                  simp only [hj3] at hok
                  rw [← Except.ok.inj hok, rename_cols_length,
                    left_join_length (hlu eid hev lt hl pclu.1 pclu.2
                      (by rw [hls])) hj3, hlen2]

/-- Witness for `merge_player_stats_row_count`: with a duplicate-free players
table the one-row input stays one row. -/
theorem merge_player_stats_row_count_witness :
    (match merge_player_stats repoC1w dfOneAthlete with
     | Except.ok t => t
     | Except.error _ => Table.emptyDF).rows.length = dfOneAthlete.rows.length := by
  apply merge_player_stats_row_count repoC1w dfOneAthlete _ tblPlayersUniq tblTeamsNoKey
  · decide
  · decide
  · decide
  · intro h; exact absurd h (by decide)
  · intro s hs
    have hnone : first_event_id
        (astype_keys dfOneAthlete ["athleteId", "teamId", "eventId"]) = none := by decide
    rw [hnone] at hs
    exact Option.noConfusion hs
  · decide

/-! Join Engine: the position-enrichment step and lineup failures. -/

lemma append_tag_ne_position (c tag : String) (htag : tag = "_x" ∨ tag = "_y") :
    c ++ tag ≠ "position" := by
  intro he
  have hd : c.data ++ tag.data = "position".data := by
    rw [← String.data_append, he]
  have htnil : tag.data ≠ [] := by
    rcases htag with h | h <;> subst h <;> decide
  have hlast : tag.data.getLast? = "position".data.getLast? := by
    rw [← hd]
    exact (List.getLast?_append_of_ne_nil _ htnil).symm
  rcases htag with h | h <;> subst h <;> exact absurd hlast (by decide)

lemma position_notin_map_sfx (tag : String) (htag : tag = "_x" ∨ tag = "_y")
    (ov cs : List String) (h : "position" ∉ cs) :
    "position" ∉ cs.map (sfx tag ov) := by
  intro hmem
  rcases List.mem_map.1 hmem with ⟨c, hc, he⟩
  unfold sfx at he
  by_cases hov : c ∈ ov
  · rw [if_pos hov] at he
    exact append_tag_ne_position c tag htag he
  · rw [if_neg hov] at he
    exact h (he ▸ hc)

lemma left_join_cols {l r : Table} {k : String} {j : Table}
    (h : left_join l r k = Except.ok j) :
    j.cols =
      l.cols.map (sfx "_x" ((l.cols.filter (fun c => c ∈ r.cols)).filter (· ≠ k)))
      ++ (r.cols.filter (· ≠ k)).map
          (sfx "_y" ((l.cols.filter (fun c => c ∈ r.cols)).filter (· ≠ k))) := by
  unfold left_join at h
  by_cases hk : k ∈ l.cols ∧ k ∈ r.cols
  · rw [if_pos hk] at h
    rw [← Except.ok.inj h]
  · rw [if_neg hk] at h
    exact absurd h (by simp)

lemma players_stage_cols (p : Table) :
    (players_stage p).cols =
      (["athleteId", "shortName", "displayName", "nationality"].filter
        (· ∈ p.cols)).map (rename_one
          [("shortName", "playerShortName"), ("displayName", "playerName"),
           ("nationality", "playerNationality")]) := by
  unfold players_stage rename_cols select_cols
  split <;> rfl

lemma position_notin_players_stage (p : Table) :
    "position" ∉ (players_stage p).cols := by
  rw [players_stage_cols]
  intro h
  rcases List.mem_map.1 h with ⟨c, hc, he⟩
  have hc4 := (List.mem_filter.1 hc).1
  fin_cases hc4 <;> exact absurd he (by decide)

lemma teams_stage_cols (t : Table) :
    (teams_stage t).cols =
      (["teamId", "displayName", "shortName", "abbrev"].filter
        (· ∈ t.cols)).map (rename_one
          [("displayName", "teamName"), ("shortName", "teamShortName"),
           ("abbrev", "teamAbbrev")]) := by
  unfold teams_stage rename_cols select_cols astype_str
  rfl

lemma position_notin_teams_stage (t : Table) :
    "position" ∉ (teams_stage t).cols := by
  rw [teams_stage_cols]
  intro h
  rcases List.mem_map.1 h with ⟨c, hc, he⟩
  have hc4 := (List.mem_filter.1 hc).1
  fin_cases hc4 <;> exact absurd he (by decide)

lemma position_notin_join {l r : Table} {k : String} {j : Table}
    (h : left_join l r k = Except.ok j) (hl : "position" ∉ l.cols)
    (hr : "position" ∉ r.cols) : "position" ∉ j.cols := by
  rw [left_join_cols h]
  intro hm
  rcases List.mem_append.1 hm with hL | hR
  · exact position_notin_map_sfx "_x" (Or.inl rfl) _ _ hl hL
  · exact position_notin_map_sfx "_y" (Or.inr rfl) _ _
      (fun hm2 => hr (List.mem_filter.1 hm2).1) hR

lemma position_notin_drop_col (t : Table) (c : String)
    (h : "position" ∉ t.cols) : "position" ∉ (drop_col t c).cols :=
  fun hm => h (List.mem_filter.1 hm).1

/-- Counterexample to claim C2: a dataset whose first record id is absent
from fixtures makes `merge_player_stats` fail with the resolver's
record-not-found error — the source wraps the lineup load in no error
handling, so the failure is propagated, not treated as "no position
available". -/
theorem merge_propagates_lineup_failure_counterexample :
    merge_player_stats repoC2 dfAthleteEvent999 =
      Except.error (Err.recordNotFound "999") := by
  decide

/-- Claim C2 amended: only the *empty-lineup* case is best-effort — when the
referenced record resolves and its lineup partition simply has no rows, the
join proceeds and the result carries no `position` column; a failure of the
lineup resolution itself (record absent from fixtures, undeterminable
season) is propagated to the caller instead. -/
theorem merge_no_position_when_lineup_empty (repo : Repo) (df out pt tt : Table)
    (hps : getBaseTable repo "players" = Except.ok pt)
    (hts : getBaseTable repo "teams" = Except.ok tt)
    (hpos : "position" ∉ df.cols)
    (hemp : ∀ s, first_event_id (astype_keys df ["athleteId", "teamId", "eventId"]) = some s →
      ∀ lt, lineup_for_event repo (Value.str s) = Except.ok lt → lt.rows = [])
    (hok : merge_player_stats repo df = Except.ok out) :
    "position" ∉ out.cols := by
  unfold merge_player_stats at hok
  by_cases hpd : df.pdEmpty
  · rw [if_pos hpd] at hok
    rw [← Except.ok.inj hok]
    exact hpos
  · rw [if_neg hpd] at hok
    simp only [hps] at hok
    cases hj1 : left_join (astype_keys df ["athleteId", "teamId", "eventId"])
        (players_stage pt) "athleteId" with
    | error e => simp [hj1] at hok
    | ok out1 =>
      simp only [hj1] at hok
      have hpos1 : "position" ∉ out1.cols := by
        refine position_notin_join hj1 ?_ (position_notin_players_stage pt)
        rw [astype_keys_cols]
        exact hpos
      simp only [hts] at hok
      have hstep2 : ∀ out2,
          (if "teamId" ∈ tt.cols then
            match left_join out1 (teams_stage tt) "teamId" with
            | Except.error e => Except.error e
            | Except.ok o => Except.ok (drop_col o "teamId")
          else Except.ok out1) = Except.ok out2 →
          "position" ∉ out2.cols := by
        intro out2 h2
        by_cases htid : "teamId" ∈ tt.cols
        · rw [if_pos htid] at h2
          cases hj2 : left_join out1 (teams_stage tt) "teamId" with
          | error e => simp [hj2] at h2
          | ok o =>
            simp only [hj2] at h2
            rw [← Except.ok.inj h2]
            exact position_notin_drop_col o "teamId"
              (position_notin_join hj2 hpos1 (position_notin_teams_stage tt))
        · rw [if_neg htid] at h2
          rw [← Except.ok.inj h2]
          exact hpos1
      cases hev : first_event_id (astype_keys df ["athleteId", "teamId", "eventId"]) with
      | none =>
        simp only [hev] at hok
        cases h2 : (if "teamId" ∈ tt.cols then
            match left_join out1 (teams_stage tt) "teamId" with
            | Except.error e => Except.error e
            | Except.ok o => Except.ok (drop_col o "teamId")
          else Except.ok out1) with
        | error e => simp [h2] at hok
        | ok out2 =>
          simp only [h2] at hok
          rw [← Except.ok.inj hok]
          exact hstep2 out2 h2
      | some eid =>
        simp only [hev] at hok
        cases h2 : (if "teamId" ∈ tt.cols then
            match left_join out1 (teams_stage tt) "teamId" with
            | Except.error e => Except.error e
            | Except.ok o => Except.ok (drop_col o "teamId")
          else Except.ok out1) with
        | error e => simp [h2] at hok
        | ok out2 =>
          simp only [h2] at hok
          have hpos2 := hstep2 out2 h2
          by_cases heid : eid = ""
          · rw [if_pos heid] at hok
            rw [← Except.ok.inj hok]
            exact hpos2
          · rw [if_neg heid] at hok
            cases hl : lineup_for_event repo (Value.str eid) with
            | error e => simp [hl] at hok
            | ok lt =>
              simp only [hl] at hok
              have hrows : lt.rows = [] := hemp eid hev lt hl
              have hstage : lineup_stage lt = none := by
                unfold lineup_stage
                rw [hrows]
                rfl
              simp only [hstage] at hok
              rw [← Except.ok.inj hok]
              exact hpos2

/-- Witness for `merge_no_position_when_lineup_empty`: the scenario
repository, whose `lineup_data` directory matches no file for the resolved
partition, yields an enriched result with no `position` column. -/
theorem merge_no_position_when_lineup_empty_witness :
    "position" ∉ outC2w.cols := by
  apply merge_no_position_when_lineup_empty repoC2w dfAthleteEvent100 outC2w
    tblPlayersKeyOnly tblTeamsNoKey
  · decide
  · decide
  · decide
  · intro s hs lt hl
    have h100 : first_event_id
        (astype_keys dfAthleteEvent100 ["athleteId", "teamId", "eventId"]) =
          some "100" := by decide
    rw [h100] at hs
    have hs' : s = "100" := (Option.some.inj hs).symm
    subst hs'
    have hemit : lineup_for_event repoC2w (Value.str "100") =
        Except.ok Table.emptyDF := by decide
    rw [hemit] at hl
    rw [← Except.ok.inj hl]
    rfl
  · decide

end ESPNData
